import Mathlib

/-!
# Verification of the Data-Quality Gate & Batch-Dispatch Core

Shallow embedding of `api/data_validation.js` and the batch dispatchers
(`api/dispatcher_token_prices.js`, `api/dispatcher_token_prices_direct.js`,
`api/dispatcher_liquidity_pools.js`) together with the summary-upsert logic
of `updateQualitySummary` and the scrub routing of `insertIntoScrubTable`.

Modelling conventions:
* JavaScript numbers are modelled exactly over `ℚ` (integer penalty
  accumulators over `ℤ`); the concrete constants appearing in the code are
  exactly representable, so no floating-point rounding is modelled.
* A record field that is absent (`undefined`) or `null` is `none`; a present
  numeric field is `some q`.  The `!x || typeof x !== 'number'` guards of the
  source send every non-numeric present value into the same branch as an
  absent one, which is how `none` is read below.
* `x.toFixed(1)` on a percentage is modelled by the integer number of tenths
  (`round (x * 10)`), and similar for other formatted amounts.
-/

/-- Outlier reasons produced by the validators.  Each constructor mirrors one
template string of `api/data_validation.js`; numeric payloads carry the value
that the source interpolates (scaled to an integer where `toFixed` fixes the
number of decimals). -/
inductive OReason where
  | suddenPriceChange (pctTenths : ℤ)
  | extremeApy (field : String) (pctHundredths : ℤ)
  | unrealisticUsd (field : String) (amount : ℚ)
  | extremeDailyFlow (amount : ℚ)
  | unrealisticMcap (amount : ℚ)
  | verySmallTvl (hundredths : ℤ)
  | extremelyHighTvl (billionsTenths : ℤ)
  | noApiData
deriving DecidableEq, Repr

/-- The record returned by every validator of `api/data_validation.js`. -/
structure ValidationResult where
  isValid : Bool
  errors : List String
  qualityScore : ℤ
  isOutlier : Bool
  outlierReason : Option OReason
deriving DecidableEq, Repr

/-- The running mutable state of one validator body: the `errors` array, the
`qualityScore` accumulator (which may run negative before the final floor),
and the outlier flag/reason. -/
structure VState where
  errors : List String
  score : ℤ
  isOutlier : Bool
  outlierReason : Option OReason
deriving DecidableEq, Repr

/-- Initial validator state: no errors, score 100, no outlier. -/
def VState.init : VState := ⟨[], 100, false, none⟩

/-- `errors.push(e); qualityScore -= p`. -/
def VState.addError (s : VState) (e : String) (p : ℕ) : VState :=
  { s with errors := s.errors ++ [e], score := s.score - p }

/-- `isOutlier = true; outlierReason = r; qualityScore -= p`. -/
def VState.markOutlier (s : VState) (r : OReason) (p : ℕ) : VState :=
  { s with isOutlier := true, outlierReason := some r, score := s.score - p }

/-- `qualityScore -= p` without an error (not used by the current rules but
kept for symmetry with the source's soft penalties). -/
def VState.penalize (s : VState) (p : ℕ) : VState :=
  { s with score := s.score - p }

/-- Shared final return of the price/market validators (`validateTokenPrice`,
`validateLendingMarket`, `validateEtfFlow`, `validateStablecoinMcap`):
`isValid: errors.length === 0 && qualityScore >= 70` computed on the raw
accumulator, returned score `Math.max(0, qualityScore)`. -/
def marketResult (s : VState) : ValidationResult :=
  { isValid := s.errors.isEmpty && decide (70 ≤ s.score)
    errors := s.errors
    qualityScore := max 0 s.score
    isOutlier := s.isOutlier
    outlierReason := s.outlierReason }

/-- Final return of `validateProtocolTvlData`: the score is floored first
(`qualityScore = Math.max(0, qualityScore)`), then
`isValid: errors.length === 0 && qualityScore >= 60`; `Math.round` on the
already-integral score is the identity. -/
def tvlResult (s : VState) : ValidationResult :=
  let q := max 0 s.score
  { isValid := s.errors.isEmpty && decide (60 ≤ q)
    errors := s.errors
    qualityScore := q
    isOutlier := s.isOutlier
    outlierReason := s.outlierReason }

/-- Input of `validateTokenPrice`: the fields the validator reads. -/
structure PriceData where
  price : Option ℚ
  timestamp : Option ℚ
  confidence : Option ℚ
deriving DecidableEq, Repr

/-- `|price - previousPrice| / previousPrice`, the relative-change fraction of
`validateTokenPrice`. -/
def priceChangeFraction (price previousPrice : ℚ) : ℚ :=
  |price - previousPrice| / previousPrice

/-- The `!x` truthiness guard on a required string field followed by
`errors.push(err); qualityScore -= p` (used for market ids, peg, day, …). -/
def checkRequiredString (s : VState) (v : Option String) (err : String) (p : ℕ) : VState :=
  match v with
  | none => s.addError err p
  | some x => if x = "" then s.addError err p else s

/-- `if (!x || !Number.isFinite(x)) errors.push('invalid_timestamp')` :
absent, falsy-zero or non-numeric timestamps all fail the guard. -/
def checkTimestampField (s : VState) (v : Option ℚ) : VState :=
  match v with
  | none => s.addError "invalid_timestamp" 25
  | some t => if t = 0 then s.addError "invalid_timestamp" 25 else s

/-- The price block of `validateTokenPrice` (`api/data_validation.js:21-53`):
presence/type guard, absolute range rules, and the relative-change rules
against the previous observed price. -/
def priceFieldCheck (s : VState) (price : Option ℚ) (previousPrice : Option ℚ) : VState :=
  match price with
  | none => s.addError "invalid_price" 30
  | some p =>
    if p = 0 then s.addError "invalid_price" 30
    else
      let s :=
        if p ≤ 0 then s.addError "negative_price" 40
        else if p > 10 ^ 12 then s.addError "unrealistic_price_high" 30
        else s
      match previousPrice with
      | none => s
      | some prev =>
        if prev > 0 then
          let change := priceChangeFraction p prev
          let s :=
            if change > 1 / 2 then
              s.markOutlier (OReason.suddenPriceChange (round (change * 100 * 10))) 20
            else s
          if change > 9 / 10 then s.addError "extreme_price_change" 50 else s
        else s

/-- The confidence block of `validateTokenPrice`
(`api/data_validation.js:72-75`). -/
def confidenceCheck (s : VState) (v : Option ℚ) : VState :=
  match v with
  | none => s
  | some c => if c ≠ 0 ∧ (c < 0 ∨ c > 1) then s.addError "invalid_confidence" 10 else s

/-- Body of `validateTokenPrice` (`api/data_validation.js:14-76`), before the
final return. -/
def validateTokenPriceCore (d : PriceData) (previousPrice : Option ℚ) : VState :=
  let s := priceFieldCheck VState.init d.price previousPrice
  let s := checkTimestampField s d.timestamp
  confidenceCheck s d.confidence

/-- `validateTokenPrice(priceData, previousPrice)` of `api/data_validation.js`. -/
def validateTokenPrice (d : PriceData) (previousPrice : Option ℚ) : ValidationResult :=
  marketResult (validateTokenPriceCore d previousPrice)

/-- Input of `validateLendingMarket`: the fields the validator reads.  The four
APY fields and three USD fields are kept in source order. -/
structure LendingData where
  market_id : Option String
  apyBase : Option ℚ
  apyReward : Option ℚ
  apyBaseBorrow : Option ℚ
  apyRewardBorrow : Option ℚ
  totalSupplyUsd : Option ℚ
  totalBorrowUsd : Option ℚ
  debtCeilingUsd : Option ℚ
  timestamp : Option ℚ
deriving DecidableEq, Repr

/-- One iteration of the APY-field loop of `validateLendingMarket`. -/
def lendApyCheck (s : VState) (fv : String × Option ℚ) : VState :=
  match fv.2 with
  | none => s
  | some apy =>
    if apy < -100 ∨ apy > 10000 then
      s.markOutlier (OReason.extremeApy fv.1 (round (apy * 100))) 20
    else s

/-- One iteration of the USD-field loop of `validateLendingMarket`. -/
def lendUsdCheck (s : VState) (fv : String × Option ℚ) : VState :=
  match fv.2 with
  | none => s
  | some amount =>
    if amount < 0 then s.addError ("invalid_" ++ fv.1) 15
    else if amount > 10 ^ 15 then
      s.markOutlier (OReason.unrealisticUsd fv.1 amount) 25
    else s

/-- Body of `validateLendingMarket` (`api/data_validation.js:89-138`). -/
def validateLendingMarketCore (d : LendingData) : VState :=
  let s := checkRequiredString VState.init d.market_id "missing_market_id" 40
  let s := List.foldl lendApyCheck s
    [("apyBase", d.apyBase), ("apyReward", d.apyReward),
     ("apyBaseBorrow", d.apyBaseBorrow), ("apyRewardBorrow", d.apyRewardBorrow)]
  let s := List.foldl lendUsdCheck s
    [("totalSupplyUsd", d.totalSupplyUsd), ("totalBorrowUsd", d.totalBorrowUsd),
     ("debtCeilingUsd", d.debtCeilingUsd)]
  checkTimestampField s d.timestamp

/-- `validateLendingMarket(lendingData)` of `api/data_validation.js`. -/
def validateLendingMarket (d : LendingData) : ValidationResult :=
  marketResult (validateLendingMarketCore d)

/-- Input of `validateEtfFlow`. -/
structure EtfData where
  gecko_id : Option String
  day : Option String
  total_flow_usd : Option ℚ
deriving DecidableEq, Repr

/-- The flow-amount block of `validateEtfFlow`
(`api/data_validation.js:169-179`). -/
def etfFlowCheck (s : VState) (v : Option ℚ) : VState :=
  match v with
  | none => s
  | some flow =>
    if |flow| > 10 ^ 12 then s.markOutlier (OReason.extremeDailyFlow flow) 15 else s

/-- Body of `validateEtfFlow` (`api/data_validation.js:151-180`). -/
def validateEtfFlowCore (d : EtfData) : VState :=
  let s := checkRequiredString VState.init d.gecko_id "missing_gecko_id" 40
  let s := checkRequiredString s d.day "missing_day" 30
  etfFlowCheck s d.total_flow_usd

/-- `validateEtfFlow(etfData)` of `api/data_validation.js`. -/
def validateEtfFlow (d : EtfData) : ValidationResult :=
  marketResult (validateEtfFlowCore d)

/-- Input of `validateStablecoinMcap`. -/
structure StablecoinData where
  peg : Option String
  day : Option String
  amount_usd : Option ℚ
deriving DecidableEq, Repr

/-- The amount block of `validateStablecoinMcap`
(`api/data_validation.js:211-221`). -/
def mcapAmountCheck (s : VState) (v : Option ℚ) : VState :=
  match v with
  | none => s
  | some amount =>
    if amount < 0 then s.addError "invalid_amount" 25
    else if amount > 10 ^ 15 then s.markOutlier (OReason.unrealisticMcap amount) 20
    else s

/-- Body of `validateStablecoinMcap` (`api/data_validation.js:193-222`). -/
def validateStablecoinMcapCore (d : StablecoinData) : VState :=
  let s := checkRequiredString VState.init d.peg "missing_peg" 30
  let s := checkRequiredString s d.day "missing_day" 30
  mcapAmountCheck s d.amount_usd

/-- `validateStablecoinMcap(stablecoinData)` of `api/data_validation.js`. -/
def validateStablecoinMcap (d : StablecoinData) : ValidationResult :=
  marketResult (validateStablecoinMcapCore d)

/-- Whitespace characters stripped by the JavaScript `String.prototype.trim`
(the representative set). -/
def isJsWhitespace (c : Char) : Bool := c = ' ' || c = '\t' || c = '\n' || c = '\r'

/-- Model of the JS test `s.trim().length === 0`: every character of `s` is
whitespace. -/
def blankString (s : String) : Bool := s.data.all isJsWhitespace

/-- Input of `validateProtocolTvlData`. -/
structure ProtocolTvlData where
  protocol_id : Option String
  chain : Option String
  total_liquidity_usd : Option ℚ
  ts : Option String
  protocol_name : Option String
deriving DecidableEq, Repr

/-- The TVL-amount block of `validateProtocolTvlData`
(`api/data_validation.js:457-479`): falsy/non-numeric guard, then the
range rules; the `> 500e9` band is both a hard error and an outlier. -/
def tvlAmountCheck (s : VState) (v : Option ℚ) : VState :=
  match v with
  | none => s.addError "invalid_tvl_amount" 40
  | some tvl =>
    if tvl = 0 then s.addError "invalid_tvl_amount" 40
    else if tvl ≤ 0 then s.addError "negative_tvl" 50
    else if tvl < 1000 then
      s.markOutlier (OReason.verySmallTvl (round (tvl * 100))) 10
    else if tvl > 500 * 10 ^ 9 then
      let s := s.addError "unrealistic_tvl_high" 30
      { s with isOutlier := true,
               outlierReason :=
                 some (OReason.extremelyHighTvl (round (tvl / 10 ^ 9 * 10))) }
    else s

/-- The protocol-name block of `validateProtocolTvlData`
(`api/data_validation.js:488-491`): missing, empty, or whitespace-only. -/
def protocolNameCheck (s : VState) (v : Option String) : VState :=
  match v with
  | none => s.addError "missing_protocol_name" 15
  | some n =>
    if n = "" ∨ blankString n then s.addError "missing_protocol_name" 15 else s

/-- Body of `validateProtocolTvlData` (`api/data_validation.js:440-491`). -/
def validateProtocolTvlDataCore (d : ProtocolTvlData) : VState :=
  let s := checkRequiredString VState.init d.protocol_id "invalid_protocol_id" 30
  let s := checkRequiredString s d.chain "invalid_chain" 25
  let s := tvlAmountCheck s d.total_liquidity_usd
  let s := checkRequiredString s d.ts "missing_timestamp" 20
  protocolNameCheck s d.protocol_name

/-- `validateProtocolTvlData(protocolData)` of `api/data_validation.js`. -/
def validateProtocolTvlData (d : ProtocolTvlData) : ValidationResult :=
  tvlResult (validateProtocolTvlDataCore d)

/-! ## Score bounds for the validators -/

lemma checkRequiredString_score_le (s : VState) (v : Option String) (err : String) (p : ℕ) :
    (checkRequiredString s v err p).score ≤ s.score := by
  unfold checkRequiredString
  rcases v with _ | x
  all_goals try dsimp only
  all_goals try split_ifs
  all_goals try dsimp only [VState.addError]
  all_goals omega

lemma checkTimestampField_score_le (s : VState) (v : Option ℚ) :
    (checkTimestampField s v).score ≤ s.score := by
  unfold checkTimestampField
  rcases v with _ | t
  all_goals try dsimp only
  all_goals try split_ifs
  all_goals try dsimp only [VState.addError]
  all_goals omega

lemma priceFieldCheck_score_le (s : VState) (price previousPrice : Option ℚ) :
    (priceFieldCheck s price previousPrice).score ≤ s.score := by
  unfold priceFieldCheck
  rcases price with _ | p <;> rcases previousPrice with _ | q
  all_goals try dsimp only
  all_goals try split_ifs
  all_goals try dsimp only [VState.addError, VState.markOutlier]
  all_goals omega

lemma confidenceCheck_score_le (s : VState) (v : Option ℚ) :
    (confidenceCheck s v).score ≤ s.score := by
  unfold confidenceCheck
  rcases v with _ | c
  all_goals try dsimp only
  all_goals try split_ifs
  all_goals try dsimp only [VState.addError]
  all_goals omega

lemma lendApyCheck_score_le (s : VState) (fv : String × Option ℚ) :
    (lendApyCheck s fv).score ≤ s.score := by
  unfold lendApyCheck
  rcases fv with ⟨f, _ | apy⟩
  all_goals try dsimp only
  all_goals try split_ifs
  all_goals try dsimp only [VState.markOutlier]
  all_goals omega

lemma lendUsdCheck_score_le (s : VState) (fv : String × Option ℚ) :
    (lendUsdCheck s fv).score ≤ s.score := by
  unfold lendUsdCheck
  rcases fv with ⟨f, _ | amount⟩
  all_goals try dsimp only
  all_goals try split_ifs
  all_goals try dsimp only [VState.addError, VState.markOutlier]
  all_goals omega

lemma etfFlowCheck_score_le (s : VState) (v : Option ℚ) :
    (etfFlowCheck s v).score ≤ s.score := by
  unfold etfFlowCheck
  rcases v with _ | flow
  all_goals try dsimp only
  all_goals try split_ifs
  all_goals try dsimp only [VState.markOutlier]
  all_goals omega

lemma mcapAmountCheck_score_le (s : VState) (v : Option ℚ) :
    (mcapAmountCheck s v).score ≤ s.score := by
  unfold mcapAmountCheck
  rcases v with _ | amount
  all_goals try dsimp only
  all_goals try split_ifs
  all_goals try dsimp only [VState.addError, VState.markOutlier]
  all_goals omega

lemma tvlAmountCheck_score_le (s : VState) (v : Option ℚ) :
    (tvlAmountCheck s v).score ≤ s.score := by
  unfold tvlAmountCheck
  rcases v with _ | tvl
  all_goals try dsimp only
  all_goals try split_ifs
  all_goals try dsimp only [VState.addError, VState.markOutlier]
  all_goals omega

lemma protocolNameCheck_score_le (s : VState) (v : Option String) :
    (protocolNameCheck s v).score ≤ s.score := by
  unfold protocolNameCheck
  rcases v with _ | n
  all_goals try dsimp only
  all_goals try split_ifs
  all_goals try dsimp only [VState.addError]
  all_goals omega

lemma foldl_score_le {α : Type} (f : VState → α → VState)
    (h : ∀ s a, (f s a).score ≤ s.score) (l : List α) :
    ∀ s : VState, (List.foldl f s l).score ≤ s.score := by
  induction l with
  | nil => intro s; simp
  | cons a l ih => intro s; exact le_trans (ih (f s a)) (h s a)

lemma validateTokenPriceCore_score_le (d : PriceData) (prev : Option ℚ) :
    (validateTokenPriceCore d prev).score ≤ 100 := by
  unfold validateTokenPriceCore
  exact le_trans (confidenceCheck_score_le _ _)
    (le_trans (checkTimestampField_score_le _ _) (priceFieldCheck_score_le _ _ _))

lemma validateLendingMarketCore_score_le (d : LendingData) :
    (validateLendingMarketCore d).score ≤ 100 := by
  unfold validateLendingMarketCore
  exact le_trans (checkTimestampField_score_le _ _)
    (le_trans (foldl_score_le _ lendUsdCheck_score_le _ _)
      (le_trans (foldl_score_le _ lendApyCheck_score_le _ _)
        (checkRequiredString_score_le _ _ _ _)))

lemma validateEtfFlowCore_score_le (d : EtfData) :
    (validateEtfFlowCore d).score ≤ 100 := by
  unfold validateEtfFlowCore
  exact le_trans (etfFlowCheck_score_le _ _)
    (le_trans (checkRequiredString_score_le _ _ _ _)
      (checkRequiredString_score_le _ _ _ _))

lemma validateStablecoinMcapCore_score_le (d : StablecoinData) :
    (validateStablecoinMcapCore d).score ≤ 100 := by
  unfold validateStablecoinMcapCore
  exact le_trans (mcapAmountCheck_score_le _ _)
    (le_trans (checkRequiredString_score_le _ _ _ _)
      (checkRequiredString_score_le _ _ _ _))

lemma validateProtocolTvlDataCore_score_le (d : ProtocolTvlData) :
    (validateProtocolTvlDataCore d).score ≤ 100 := by
  unfold validateProtocolTvlDataCore
  exact le_trans (protocolNameCheck_score_le _ _)
    (le_trans (checkRequiredString_score_le _ _ _ _)
      (le_trans (tvlAmountCheck_score_le _ _)
        (le_trans (checkRequiredString_score_le _ _ _ _)
          (checkRequiredString_score_le _ _ _ _))))

lemma marketResult_isValid_eq (s : VState) :
    (marketResult s).isValid =
      ((marketResult s).errors.isEmpty && decide (70 ≤ (marketResult s).qualityScore)) := by
  simp only [marketResult]
  congr 1
  rw [decide_eq_decide, le_max_iff]
  omega

/-! ## Claim theorems for the validators -/

/-- **C1**: for every record passed to any entity validator, the returned
result satisfies `isValid = (errors is empty AND qualityScore ≥ threshold)`,
with threshold 70 for the price/market validators and 60 for the
protocol-TVL validator; in particular a record with no errors whose score
equals the threshold exactly is valid. -/
theorem validator_isValid_eq_noErrors_and_score_ge_threshold :
    (∀ d prev, (validateTokenPrice d prev).isValid =
      ((validateTokenPrice d prev).errors.isEmpty &&
        decide (70 ≤ (validateTokenPrice d prev).qualityScore))) ∧
    (∀ d, (validateLendingMarket d).isValid =
      ((validateLendingMarket d).errors.isEmpty &&
        decide (70 ≤ (validateLendingMarket d).qualityScore))) ∧
    (∀ d, (validateEtfFlow d).isValid =
      ((validateEtfFlow d).errors.isEmpty &&
        decide (70 ≤ (validateEtfFlow d).qualityScore))) ∧
    (∀ d, (validateStablecoinMcap d).isValid =
      ((validateStablecoinMcap d).errors.isEmpty &&
        decide (70 ≤ (validateStablecoinMcap d).qualityScore))) ∧
    (∀ d, (validateProtocolTvlData d).isValid =
      ((validateProtocolTvlData d).errors.isEmpty &&
        decide (60 ≤ (validateProtocolTvlData d).qualityScore))) := by
  refine ⟨fun d prev => ?_, fun d => ?_, fun d => ?_, fun d => ?_, fun d => ?_⟩
  · exact marketResult_isValid_eq _
  · exact marketResult_isValid_eq _
  · exact marketResult_isValid_eq _
  · exact marketResult_isValid_eq _
  · rfl

/-- **C2**: every validator returns a quality score in `[0, 100]`, and the
score is the single floor `max 0 (raw accumulator)` of the summed penalties;
the raw accumulator itself may run negative (witnessed by a token-price
record whose accumulated penalties reach `-35` while the returned score
is `0`), so the floor is applied once at the end, not per rule. -/
theorem validator_qualityScore_bounds_and_single_floor :
    (∀ d prev, 0 ≤ (validateTokenPrice d prev).qualityScore ∧
      (validateTokenPrice d prev).qualityScore ≤ 100 ∧
      (validateTokenPrice d prev).qualityScore =
        max 0 (validateTokenPriceCore d prev).score) ∧
    (∀ d, 0 ≤ (validateLendingMarket d).qualityScore ∧
      (validateLendingMarket d).qualityScore ≤ 100 ∧
      (validateLendingMarket d).qualityScore = max 0 (validateLendingMarketCore d).score) ∧
    (∀ d, 0 ≤ (validateEtfFlow d).qualityScore ∧
      (validateEtfFlow d).qualityScore ≤ 100 ∧
      (validateEtfFlow d).qualityScore = max 0 (validateEtfFlowCore d).score) ∧
    (∀ d, 0 ≤ (validateStablecoinMcap d).qualityScore ∧
      (validateStablecoinMcap d).qualityScore ≤ 100 ∧
      (validateStablecoinMcap d).qualityScore = max 0 (validateStablecoinMcapCore d).score) ∧
    (∀ d, 0 ≤ (validateProtocolTvlData d).qualityScore ∧
      (validateProtocolTvlData d).qualityScore ≤ 100 ∧
      (validateProtocolTvlData d).qualityScore =
        max 0 (validateProtocolTvlDataCore d).score) ∧
    (validateTokenPriceCore ⟨some (-5), none, none⟩ (some 1)).score = -35 ∧
    (validateTokenPrice ⟨some (-5), none, none⟩ (some 1)).qualityScore = 0 := by
  refine ⟨fun d prev => ⟨le_max_left _ _,
      max_le (by norm_num) (validateTokenPriceCore_score_le d prev), rfl⟩,
    fun d => ⟨le_max_left _ _,
      max_le (by norm_num) (validateLendingMarketCore_score_le d), rfl⟩,
    fun d => ⟨le_max_left _ _,
      max_le (by norm_num) (validateEtfFlowCore_score_le d), rfl⟩,
    fun d => ⟨le_max_left _ _,
      max_le (by norm_num) (validateStablecoinMcapCore_score_le d), rfl⟩,
    fun d => ⟨le_max_left _ _,
      max_le (by norm_num) (validateProtocolTvlDataCore_score_le d), rfl⟩,
    ?_, ?_⟩
  · norm_num [validateTokenPriceCore, priceFieldCheck, checkTimestampField,
      confidenceCheck, priceChangeFraction, VState.init, VState.addError,
      VState.markOutlier, round_eq]
  · norm_num [validateTokenPrice, validateTokenPriceCore, priceFieldCheck,
      checkTimestampField, confidenceCheck, priceChangeFraction, marketResult,
      VState.init, VState.addError, VState.markOutlier, round_eq]

/-- **C9** (Scenario B): a token-price record with price 100 against a prior
observed price of 60 has change fraction `2/3 ≈ 0.667 > 0.5` but not
`> 0.9`; the validator flags it as an outlier with reason
`sudden_price_change_66.7%` (66.7 per cent, encoded as 667 tenths), applies
the single penalty of 20 leaving score 80 ≥ 70, and returns `isValid = true`:
the record is simultaneously valid and an outlier. -/
theorem scenarioB_outlier_and_still_valid :
    priceChangeFraction 100 60 = 2 / 3 ∧ (2 / 3 : ℚ) > 1 / 2 ∧ ¬ ((2 / 3 : ℚ) > 9 / 10) ∧
    validateTokenPrice ⟨some 100, some 1700000000, none⟩ (some 60) =
      ⟨true, [], 80, true, some (OReason.suddenPriceChange 667)⟩ := by
  refine ⟨?_, by norm_num, by norm_num, ?_⟩
  · unfold priceChangeFraction; norm_num
  · norm_num [validateTokenPrice, validateTokenPriceCore, priceFieldCheck,
      checkTimestampField, confidenceCheck, priceChangeFraction, marketResult,
      VState.init, VState.addError, VState.markOutlier, round_eq]

/-- **C10** (counterexample): on the Scenario E record — protocol TVL
`6 × 10^11` with all other fields well-formed — `validateProtocolTvlData`
does emit the hard error `unrealistic_tvl_high` together with
`isOutlier = true`, and the record is invalid, but the returned quality
score is `70`, which is NOT below 60: the claim's "resulting score is
below 60" is false on this input. -/
theorem scenarioE_score_is_70_not_below_60 :
    (validateProtocolTvlData
        ⟨some "aave", some "ethereum", some (6 * 10 ^ 11),
         some "2024-01-01", some "Aave"⟩).errors = ["unrealistic_tvl_high"] ∧
    (validateProtocolTvlData
        ⟨some "aave", some "ethereum", some (6 * 10 ^ 11),
         some "2024-01-01", some "Aave"⟩).isOutlier = true ∧
    (validateProtocolTvlData
        ⟨some "aave", some "ethereum", some (6 * 10 ^ 11),
         some "2024-01-01", some "Aave"⟩).qualityScore = 70 ∧
    ¬ ((validateProtocolTvlData
        ⟨some "aave", some "ethereum", some (6 * 10 ^ 11),
         some "2024-01-01", some "Aave"⟩).qualityScore < 60) := by
  simp +decide only [validateProtocolTvlData, validateProtocolTvlDataCore,
    checkRequiredString, tvlAmountCheck, protocolNameCheck, tvlResult,
    VState.init, VState.addError, VState.markOutlier]
  norm_num

/-- **C10** (amended): on the Scenario E record the validator emits the hard
error `unrealistic_tvl_high` and sets `isOutlier = true` simultaneously, the
returned quality score is 70, and the record is invalid — because the error
list is non-empty, not because the score falls below the 60 threshold
(reason `extremely_high_tvl_600.0B`, encoded as 6000 tenths of a billion). -/
theorem scenarioE_error_and_outlier_invalid_via_errors :
    validateProtocolTvlData
        ⟨some "aave", some "ethereum", some (6 * 10 ^ 11),
         some "2024-01-01", some "Aave"⟩ =
      ⟨false, ["unrealistic_tvl_high"], 70, true,
       some (OReason.extremelyHighTvl 6000)⟩ := by
  simp +decide only [validateProtocolTvlData, validateProtocolTvlDataCore,
    checkRequiredString, tvlAmountCheck, protocolNameCheck, tvlResult,
    VState.init, VState.addError, VState.markOutlier]
  norm_num [round_eq]

/-! ## Batch Dispatcher: partitioning (`api/dispatcher_token_prices.js:33-39`,
`api/dispatcher_token_prices_direct.js:43-51`) -/

/-- `Math.ceil(total / batchSize)` on natural inputs (exact arithmetic). -/
def ceilDiv (n b : ℕ) : ℕ := (n + b - 1) / b

/-- The batch-building `for` loop of `api/dispatcher_token_prices.js:34-39`:
`for (offset = 0; offset < total; offset += batchSize)` pushing
`{offset, limit: Math.min(batchSize, total - offset)}`.  `fuel` bounds the
iteration count (the loop runs at most `total` times once `batchSize ≥ 1`). -/
def batchLoopGo (total b : ℕ) : ℕ → ℕ → List (ℕ × ℕ)
  | 0, _ => []
  | fuel + 1, offset =>
    if offset < total then
      (offset, min b (total - offset)) :: batchLoopGo total b fuel (offset + b)
    else []

/-- The batch plan of `api/dispatcher_token_prices.js` (list of
`(offset, limit)` pairs). -/
def batchPartition (total b : ℕ) : List (ℕ × ℕ) := batchLoopGo total b total 0

/-- The batch plan of `api/dispatcher_token_prices_direct.js:43-51`:
`totalBatches = Math.ceil(total/batchSize)` then
`offset = i * batchSize, limit = Math.min(batchSize, total - offset)`. -/
def batchPartitionDirect (total b : ℕ) : List (ℕ × ℕ) :=
  (List.range (ceilDiv total b)).map (fun i => (i * b, min b (total - i * b)))

lemma ceilDiv_zero_left (b : ℕ) (hb : 0 < b) : ceilDiv 0 b = 0 := by
  unfold ceilDiv
  exact Nat.div_eq_of_lt (by omega)

lemma ceilDiv_pos_step (n b : ℕ) (hb : 0 < b) (hn : 0 < n) :
    ceilDiv n b = ceilDiv (n - b) b + 1 := by
  unfold ceilDiv
  rcases le_or_lt n b with h | h
  · have h0 : n - b = 0 := by omega
    rw [h0]
    have h1 : (0 + b - 1) / b = 0 := Nat.div_eq_of_lt (by omega)
    have h2 : (n + b - 1) / b = 1 := by
      apply Nat.div_eq_of_lt_le (by omega) (by omega)
    omega
  · have h3 : n + b - 1 = (n - b + b - 1) + b := by omega
    rw [h3, Nat.add_div_right _ hb]

lemma batchLoopGo_eq_rangeMap (total b : ℕ) (hb : 0 < b) :
    ∀ (fuel offset : ℕ), total - offset ≤ fuel * b →
      batchLoopGo total b fuel offset =
        (List.range (ceilDiv (total - offset) b)).map
          (fun i => (offset + i * b, min b (total - (offset + i * b)))) := by
  intro fuel
  induction fuel with
  | zero =>
    intro offset h
    have h0 : total - offset = 0 := by omega
    rw [batchLoopGo, h0, ceilDiv_zero_left b hb]
    simp
  | succ fuel ih =>
    intro offset h
    rw [batchLoopGo]
    split_ifs with hlt
    · have hpos : 0 < total - offset := by omega
      have hstep := ceilDiv_pos_step (total - offset) b hb hpos
      have hsub : total - offset - b = total - (offset + b) := by omega
      rw [hsub] at hstep
      have hih : total - (offset + b) ≤ fuel * b := by
        have : total - offset ≤ (fuel + 1) * b := h
        have hb1 : (fuel + 1) * b = fuel * b + b := by ring
        omega
      rw [ih (offset + b) hih, hstep, List.range_succ_eq_map]
      simp only [List.map_cons, List.map_map]
      congr 1
      · simp
      · apply List.map_congr_left
        intro i _
        simp only [Function.comp_apply]
        have harith : offset + b + i * b = offset + (i + 1) * b := by ring
        rw [harith]
    · have h0 : total - offset = 0 := by omega
      rw [h0, ceilDiv_zero_left b hb]
      simp

lemma batchPartition_eq_direct (total b : ℕ) (hb : 0 < b) :
    batchPartition total b = batchPartitionDirect total b := by
  unfold batchPartition batchPartitionDirect
  have h := batchLoopGo_eq_rangeMap total b hb total 0
    (by simpa using Nat.le_mul_of_pos_right total hb)
  simpa using h

lemma batchLoopGo_limits_sum (total b : ℕ) :
    ∀ (fuel offset : ℕ), total - offset ≤ fuel * b →
      ((batchLoopGo total b fuel offset).map Prod.snd).sum = total - offset := by
  intro fuel
  induction fuel with
  | zero => intro offset h; rw [batchLoopGo]; simp; omega
  | succ fuel ih =>
    intro offset h
    rw [batchLoopGo]
    split_ifs with hlt
    · have hih : total - (offset + b) ≤ fuel * b := by
        have : total - offset ≤ (fuel + 1) * b := h
        have hb1 : (fuel + 1) * b = fuel * b + b := by ring
        omega
      simp only [List.map_cons, List.sum_cons, ih (offset + b) hih]
      omega
    · simp; omega

lemma ceilDiv_mul_ge (n b : ℕ) (hb : 0 < b) : n ≤ ceilDiv n b * b := by
  unfold ceilDiv
  have hmod := Nat.div_add_mod (n + b - 1) b
  have hlt : (n + b - 1) % b < b := Nat.mod_lt _ hb
  have hcomm : (n + b - 1) / b * b = b * ((n + b - 1) / b) := by ring
  omega

lemma ceilDiv_pred_mul_lt (n b : ℕ) (hb : 0 < b) (hn : 0 < n) :
    (ceilDiv n b - 1) * b < n := by
  unfold ceilDiv
  have hle : (n + b - 1) / b * b ≤ n + b - 1 := Nat.div_mul_le_self _ _
  have hpos : 0 < (n + b - 1) / b := Nat.div_pos (by omega) hb
  rcases Nat.exists_eq_add_of_le hpos with ⟨k, hk⟩
  rw [hk] at hle ⊢
  have h1 : (1 + k) * b = b + k * b := by ring
  have h2 : (1 + k - 1) * b = k * b := by
    have h3 : 1 + k - 1 = k := by omega
    rw [h3]
  rw [h2]
  rw [h1] at hle
  omega

lemma ceilDiv_pos (n b : ℕ) (hb : 0 < b) (hn : 0 < n) : 0 < ceilDiv n b := by
  unfold ceilDiv
  exact Nat.div_pos (by omega) hb

lemma ceilDiv_eq_rat_ceil (n b : ℕ) (hb : 0 < b) :
    (ceilDiv n b : ℤ) = ⌈(n : ℚ) / b⌉ := by
  rcases Nat.eq_zero_or_pos n with hn | hn
  · subst hn
    simp [ceilDiv_zero_left b hb]
  · symm
    rw [Int.ceil_eq_iff]
    have hbq : (0 : ℚ) < b := by exact_mod_cast hb
    have hmpos : 0 < ceilDiv n b := ceilDiv_pos n b hb hn
    constructor
    · rw [lt_div_iff₀ hbq]
      have hlt := ceilDiv_pred_mul_lt n b hb hn
      have h1 : ((ceilDiv n b : ℚ) - 1) * (b : ℚ) < (n : ℚ) := by
        have h2 : ((ceilDiv n b - 1 : ℕ) : ℚ) * (b : ℚ) < (n : ℚ) := by
          exact_mod_cast hlt
        rwa [Nat.cast_sub hmpos, Nat.cast_one] at h2
      push_cast
      linarith
    · rw [div_le_iff₀ hbq]
      have hge := ceilDiv_mul_ge n b hb
      have h1 : (n : ℚ) ≤ (ceilDiv n b : ℚ) * b := by exact_mod_cast hge
      push_cast
      linarith

/-- **C3**: for every `candidateSetSize > 0` and `batchSize > 0` the
dispatcher's partition loop produces the same plan as the
ceil-then-slice loop of the direct dispatcher; it has exactly
`ceil(candidateSetSize / batchSize)` batches of sequential fixed-size
slices, the batch limits sum to `candidateSetSize`, and the last batch's
limit is `candidateSetSize - (batchCount - 1) * batchSize`. -/
theorem batchPartition_count_sum_last (total b : ℕ) (htotal : 0 < total) (hb : 0 < b) :
    batchPartition total b = batchPartitionDirect total b ∧
    (batchPartition total b).length = ceilDiv total b ∧
    ((batchPartition total b).length : ℤ) = ⌈(total : ℚ) / b⌉ ∧
    ((batchPartition total b).map Prod.snd).sum = total ∧
    ((batchPartition total b).map Prod.snd).getD
        ((batchPartition total b).length - 1) 0 =
      total - ((batchPartition total b).length - 1) * b := by
  have heq := batchPartition_eq_direct total b hb
  have hlen : (batchPartition total b).length = ceilDiv total b := by
    rw [heq]
    simp [batchPartitionDirect]
  refine ⟨heq, hlen, ?_, ?_, ?_⟩
  · rw [hlen]
    exact ceilDiv_eq_rat_ceil total b hb
  · have hsum := batchLoopGo_limits_sum total b total 0
      (by simpa using Nat.le_mul_of_pos_right total hb)
    unfold batchPartition
    simpa using hsum
  · rw [hlen, heq]
    have hmpos : 0 < ceilDiv total b := ceilDiv_pos total b hb htotal
    rcases Nat.exists_eq_add_of_le hmpos with ⟨k, hk⟩
    have hk1 : ceilDiv total b - 1 = k := by omega
    have hlt : k < (List.map Prod.snd (batchPartitionDirect total b)).length := by
      simp [batchPartitionDirect]
      omega
    rw [hk1, List.getD_eq_getElem _ _ hlt]
    have hge := ceilDiv_mul_ge total b hb
    have hmul : ceilDiv total b * b = b + k * b := by
      rw [hk]
      ring
    simp only [batchPartitionDirect, List.map_map, List.getElem_map, List.getElem_range]
    simp only [Function.comp_apply]
    omega

/-- Witness for C3 at Scenario D: `candidateSetSize = 19201`,
`batchSize = 1600` gives 13 batches, the first 12 with limit 1600 and the
13th with limit 1. -/
theorem batchPartition_count_sum_last_witness :
    0 < 19201 ∧ 0 < 1600 ∧
    (batchPartition 19201 1600).length = 13 ∧
    ((batchPartition 19201 1600).map Prod.snd).sum = 19201 ∧
    (batchPartition 19201 1600).map Prod.snd = List.replicate 12 1600 ++ [1] ∧
    ((batchPartition 19201 1600).map Prod.snd).getD 12 0 = 19201 - 12 * 1600 := by
  have h := batchPartition_count_sum_last 19201 1600 (by norm_num) (by norm_num)
  refine ⟨by norm_num, by norm_num, ?_, h.2.2.2.1, by decide, ?_⟩
  · rw [h.2.1]
    decide
  · have hlast := h.2.2.2.2
    rw [h.2.1] at hlast
    simpa using hlast

/-! ## Batch Dispatcher: run verdict (`api/dispatcher_token_prices.js:99`,
`api/dispatcher_liquidity_pools.js:87`) -/

/-- `successful >= Math.ceil(batches.length * 0.7)` — the 70 % success
threshold of the dispatchers, over exact arithmetic. -/
def dispatchSuccessVerdict (totalBatches successfulBatches : ℕ) : Bool :=
  decide ((successfulBatches : ℤ) ≥ ⌈(totalBatches : ℚ) * (7 / 10)⌉)

/-- `results.filter(r => r.success).length` of the dispatchers. -/
def successfulCount {α : Type} (success : α → Bool) (outcomes : List α) : ℕ :=
  (outcomes.filter success).length

/-- **C4**: with the default threshold 0.7 the verdict is success iff
`successfulBatches ≥ ceil(totalBatches * 0.7)`, which for a positive batch
count is equivalent to `successfulBatches / totalBatches ≥ 0.7` and to the
integer form `10 * successfulBatches ≥ 7 * totalBatches`. -/
theorem dispatchVerdict_meets_seventyPercent (n s : ℕ) (hn : 0 < n) :
    (dispatchSuccessVerdict n s = true ↔ (s : ℤ) ≥ ⌈(n : ℚ) * (7 / 10)⌉) ∧
    (dispatchSuccessVerdict n s = true ↔ (s : ℚ) / n ≥ 7 / 10) ∧
    (dispatchSuccessVerdict n s = true ↔ 10 * s ≥ 7 * n) := by
  have hnq : (0 : ℚ) < n := by exact_mod_cast hn
  have hbase : dispatchSuccessVerdict n s = true ↔ (s : ℤ) ≥ ⌈(n : ℚ) * (7 / 10)⌉ := by
    unfold dispatchSuccessVerdict
    exact decide_eq_true_iff
  have hceil : (s : ℤ) ≥ ⌈(n : ℚ) * (7 / 10)⌉ ↔ (n : ℚ) * (7 / 10) ≤ (s : ℚ) := by
    rw [ge_iff_le, Int.ceil_le]
    push_cast
    rfl
  have hratio : (n : ℚ) * (7 / 10) ≤ (s : ℚ) ↔ (s : ℚ) / n ≥ 7 / 10 := by
    rw [ge_iff_le, le_div_iff₀ hnq]
    constructor <;> intro h <;> linarith
  have hint : (n : ℚ) * (7 / 10) ≤ (s : ℚ) ↔ 10 * s ≥ 7 * n := by
    constructor
    · intro h
      have h10 : (7 : ℚ) * n ≤ 10 * s := by linarith
      exact_mod_cast h10
    · intro h
      have h10 : (7 : ℚ) * n ≤ 10 * s := by exact_mod_cast h
      linarith
  exact ⟨hbase, hbase.trans (hceil.trans hratio), hbase.trans (hceil.trans hint)⟩

/-- Witness for C4: 7 of 10 successful batches is an overall success, 6 of 10
is an overall failure. -/
theorem dispatchVerdict_meets_seventyPercent_witness :
    0 < 10 ∧
    ((dispatchSuccessVerdict 10 7 = true ↔ 10 * 7 ≥ 7 * 10) ∧
      dispatchSuccessVerdict 10 7 = true) ∧
    ((dispatchSuccessVerdict 10 6 = true ↔ 10 * 6 ≥ 7 * 10) ∧
      dispatchSuccessVerdict 10 6 = false) := by
  refine ⟨by norm_num, ⟨(dispatchVerdict_meets_seventyPercent 10 7 (by norm_num)).2.2, ?_⟩,
    ⟨(dispatchVerdict_meets_seventyPercent 10 6 (by norm_num)).2.2, ?_⟩⟩
  · exact ((dispatchVerdict_meets_seventyPercent 10 7 (by norm_num)).2.2).mpr (by norm_num)
  · have h6 := (dispatchVerdict_meets_seventyPercent 10 6 (by norm_num)).2.2
    have : ¬ (10 * 6 ≥ 7 * 10) := by norm_num
    rcases hb : dispatchSuccessVerdict 10 6 with _ | _
    · rfl
    · exact absurd (h6.mp hb) this

/-! ## Batch Dispatcher: per-batch fault isolation
(`api/dispatcher_token_prices.js:44-86`) -/

/-- The fields of the job's JSON body that the dispatcher consults
(`data.success`, `data.error`). -/
structure JobReport where
  success : Bool
  error : Option String
deriving DecidableEq, Repr

/-- The outcome record `{batch, success, error}` built per batch. -/
structure BatchOutcome where
  batch : ℕ
  success : Bool
  error : Option String
deriving DecidableEq, Repr

/-- The JS fallback `x || d` on an optional string: absent, null and the
empty string are all falsy. -/
def jsOrElse (o : Option String) (d : String) : String :=
  match o with
  | none => d
  | some s => if s = "" then d else s

/-- One iteration of the `batchPromises` map of
`api/dispatcher_token_prices.js:44-83`.  The behaviour of the invoked job is
either `Except.error e` (the invocation throws, caught by the dispatcher's
`try`/`catch`) or `Except.ok r` where `r` is the body captured by the mock
response (`none` when the job never called `res.status().json()`). -/
def runTokenPriceBatch (index : ℕ) (b : Except String (Option JobReport)) : BatchOutcome :=
  match b with
  | Except.error e => ⟨index + 1, false, some e⟩
  | Except.ok r =>
    let actualSuccess := (r.map JobReport.success).getD false
    ⟨index + 1, actualSuccess,
      if actualSuccess then none
      else some (jsOrElse (r.bind JobReport.error) "Job completed but reported failure")⟩

/-- The dispatcher's outcome list: one `runTokenPriceBatch` per planned batch,
collected by `Promise.all` in batch order. -/
def dispatchTokenPriceOutcomes (behaviors : List (Except String (Option JobReport))) :
    List BatchOutcome :=
  behaviors.enum.map (fun p => runTokenPriceBatch p.1 p.2)

lemma dispatchTokenPriceOutcomes_length (behaviors : List (Except String (Option JobReport))) :
    (dispatchTokenPriceOutcomes behaviors).length = behaviors.length := by
  simp [dispatchTokenPriceOutcomes]

lemma dispatchTokenPriceOutcomes_getD (behaviors : List (Except String (Option JobReport)))
    (i : ℕ) (hi : i < behaviors.length) :
    (dispatchTokenPriceOutcomes behaviors).getD i ⟨0, true, none⟩ =
      runTokenPriceBatch i (behaviors.getD i (Except.ok none)) := by
  have hi2 : i < (dispatchTokenPriceOutcomes behaviors).length := by
    rw [dispatchTokenPriceOutcomes_length]; exact hi
  rw [List.getD_eq_getElem _ _ hi2, List.getD_eq_getElem _ _ hi]
  simp [dispatchTokenPriceOutcomes]

/-- **C5**: if batch `k`'s job invocation throws with message `e`, the
dispatcher converts it into an outcome with `success = false` carrying `e`,
while every planned batch — including all siblings — still yields exactly one
outcome in order (`outcomes[i].batch = i + 1`, one outcome per planned batch,
none missing or duplicated) and the dispatch call itself does not abort. -/
theorem dispatch_isolates_batch_failures (behaviors : List (Except String (Option JobReport)))
    (k : ℕ) (e : String) (hk : k < behaviors.length)
    (hke : behaviors.getD k (Except.ok none) = Except.error e) :
    (dispatchTokenPriceOutcomes behaviors).length = behaviors.length ∧
    ((dispatchTokenPriceOutcomes behaviors).getD k ⟨0, true, none⟩).success = false ∧
    ((dispatchTokenPriceOutcomes behaviors).getD k ⟨0, true, none⟩).error = some e ∧
    (∀ i, i < behaviors.length →
      ((dispatchTokenPriceOutcomes behaviors).getD i ⟨0, true, none⟩).batch = i + 1) := by
  refine ⟨dispatchTokenPriceOutcomes_length behaviors, ?_, ?_, ?_⟩
  · rw [dispatchTokenPriceOutcomes_getD behaviors k hk, hke]
    rfl
  · rw [dispatchTokenPriceOutcomes_getD behaviors k hk, hke]
    rfl
  · intro i hi
    rw [dispatchTokenPriceOutcomes_getD behaviors i hi]
    rcases behaviors.getD i (Except.ok none) with e' | r <;> rfl

/-- Witness for C5: a three-batch run whose second batch throws `"boom"`
still produces three ordered outcomes, with the failure recorded at index 1
and the siblings intact. -/
theorem dispatch_isolates_batch_failures_witness :
    (1 < ([Except.ok (some ⟨true, none⟩), Except.error "boom",
           Except.ok none] : List (Except String (Option JobReport))).length) ∧
    (([Except.ok (some ⟨true, none⟩), Except.error "boom",
       Except.ok none] : List (Except String (Option JobReport))).getD 1
        (Except.ok none) = Except.error "boom") ∧
    ((dispatchTokenPriceOutcomes
        [Except.ok (some ⟨true, none⟩), Except.error "boom",
         Except.ok none]).length = 3 ∧
      ((dispatchTokenPriceOutcomes
        [Except.ok (some ⟨true, none⟩), Except.error "boom",
         Except.ok none]).getD 1 ⟨0, true, none⟩).success = false ∧
      ((dispatchTokenPriceOutcomes
        [Except.ok (some ⟨true, none⟩), Except.error "boom",
         Except.ok none]).getD 1 ⟨0, true, none⟩).error = some "boom" ∧
      (∀ i, i < 3 →
        ((dispatchTokenPriceOutcomes
          [Except.ok (some ⟨true, none⟩), Except.error "boom",
           Except.ok none]).getD i ⟨0, true, none⟩).batch = i + 1)) := by
  refine ⟨by norm_num, rfl, ?_⟩
  exact dispatch_isolates_batch_failures
    [Except.ok (some ⟨true, none⟩), Except.error "boom", Except.ok none]
    1 "boom" (by norm_num) rfl

/-! ## Scrub Router (`api/data_validation.js:255-396`, `insertIntoScrubTable`) -/

/-- JavaScript values as they occur in the scrub rows: `null`, numbers,
strings, booleans, the `validation_errors` array, ISO strings produced by
`new Date(ms).toISOString()`, outlier reasons, and opaque JSON blobs
(`original_data` and the results of coercing a non-numeric value). -/
inductive JV where
  | null
  | num (q : ℚ)
  | str (s : String)
  | bool (b : Bool)
  | strList (l : List String)
  | isoDate (epochMs : ℚ)
  | reason (r : OReason)
  | blob (tag : String)
deriving DecidableEq, Repr

/-- JavaScript truthiness of a `JV`. -/
def JV.truthy : JV → Bool
  | JV.null => false
  | JV.num q => decide (q ≠ 0)
  | JV.str s => decide (s ≠ "")
  | JV.bool b => b
  | JV.strList _ => true
  | JV.isoDate _ => true
  | JV.reason _ => true
  | JV.blob _ => true

/-- Reading `data.k` on a JS object modelled as an association list;
`none` is `undefined`. -/
def getField (data : List (String × JV)) (k : String) : Option JV :=
  (data.find? (fun p => p.1 == k)).map Prod.snd

/-- `scrubData.k = v`, with JS object semantics: an existing key is
overwritten in place, a new key is appended. -/
def setField (entries : List (String × JV)) (k : String) (v : JV) : List (String × JV) :=
  if entries.any (fun p => p.1 == k) then
    entries.map (fun p => if p.1 == k then (k, v) else p)
  else entries ++ [(k, v)]

/-- `if (data.src) scrubData.dst = data.src` (truthiness guard). -/
def copyIfTruthy (entries : List (String × JV)) (data : List (String × JV))
    (src dst : String) : List (String × JV) :=
  match getField data src with
  | some v => if v.truthy then setField entries dst v else entries
  | none => entries

/-- `if (data.src !== undefined) scrubData.dst = data.src`. -/
def copyIfDefined (entries : List (String × JV)) (data : List (String × JV))
    (src dst : String) : List (String × JV) :=
  match getField data src with
  | some v => setField entries dst v
  | none => entries

/-- `new Date(x * 1000).toISOString()` on a field value (seconds → ISO).
A non-numeric value would go through JS `Date` coercion; that case is kept
opaque. -/
def jsDateFromSec (v : JV) : JV :=
  match v with
  | JV.num q => JV.isoDate (q * 1000)
  | _ => JV.blob "date_coercion"

/-- `Math.round` on a field value. -/
def jsRound (v : JV) : JV :=
  match v with
  | JV.num q => JV.num (round q)
  | _ => JV.blob "round_coercion"

/-- `if (data.src) scrubData.dst = new Date(data.src * 1000).toISOString()`. -/
def copyDateIfTruthy (entries : List (String × JV)) (data : List (String × JV))
    (src dst : String) : List (String × JV) :=
  match getField data src with
  | some v => if v.truthy then setField entries dst (jsDateFromSec v) else entries
  | none => entries

/-- `if (data.src !== undefined) scrubData.dst = new Date(data.src * 1000).toISOString()`. -/
def copyDateIfDefined (entries : List (String × JV)) (data : List (String × JV))
    (src dst : String) : List (String × JV) :=
  match getField data src with
  | some v => setField entries dst (jsDateFromSec v)
  | none => entries

/-- `if (data.src !== undefined) scrubData.dst = Math.round(data.src)`. -/
def copyRoundIfDefined (entries : List (String × JV)) (data : List (String × JV))
    (src dst : String) : List (String × JV) :=
  match getField data src with
  | some v => setField entries dst (jsRound v)
  | none => entries

/-- The common head of `scrubData` (`api/data_validation.js:257-264`). -/
def baseScrubData (validation : ValidationResult) (jobRunId : String)
    (originalData : JV) : List (String × JV) :=
  [("validation_errors", JV.strList validation.errors),
   ("quality_score", JV.num (validation.qualityScore : ℚ)),
   ("is_outlier", JV.bool validation.isOutlier),
   ("outlier_reason",
     match validation.outlierReason with
     | some r => JV.reason r
     | none => JV.null),
   ("original_data", originalData),
   ("job_run_id", JV.str jobRunId)]

/-- Column mapping for `token_price_scrub` (`api/data_validation.js:267-286`). -/
def tokenPriceScrubMap (entries data : List (String × JV)) : List (String × JV) :=
  let entries := copyIfTruthy entries data "coinId" "coin_id"
  let entries := copyDateIfTruthy entries data "tsSec" "price_timestamp"
  let entries := copyIfDefined entries data "price" "price_usd"
  let entries := copyIfTruthy entries data "symbol" "symbol"
  let entries := copyIfDefined entries data "confidence" "confidence"
  copyRoundIfDefined entries data "decimals" "decimals"

/-- Column mapping for `lending_market_scrub` (`api/data_validation.js:287-308`);
note both `ts` and `timestamp` write the `ts` column, the latter overwriting
the former when both are present. -/
def lendingScrubMap (entries data : List (String × JV)) : List (String × JV) :=
  let entries := copyIfTruthy entries data "market_id" "market_id"
  let entries := copyDateIfDefined entries data "ts" "ts"
  let entries := copyDateIfDefined entries data "timestamp" "ts"
  let entries := copyIfTruthy entries data "project" "project"
  let entries := copyIfTruthy entries data "chain" "chain"
  copyIfTruthy entries data "symbol" "symbol"

/-- Column mapping for `protocol_tvl_scrub` (`api/data_validation.js:309-337`). -/
def protocolTvlScrubMap (entries data : List (String × JV)) : List (String × JV) :=
  let entries := copyIfTruthy entries data "protocol_id" "protocol_id"
  let entries := copyIfTruthy entries data "protocol_name" "protocol_name"
  let entries := copyIfTruthy entries data "chain" "chain"
  let entries := copyIfTruthy entries data "series_type" "series_type"
  let entries := copyIfTruthy entries data "ts" "ts"
  let entries := copyIfDefined entries data "total_liquidity_usd" "total_liquidity_usd"
  let entries := copyIfTruthy entries data "category" "category"
  let entries := copyIfTruthy entries data "symbol" "symbol"
  copyIfTruthy entries data "url" "url"

/-- Column mapping for `cl_pool_hist_scrub` (`api/data_validation.js:338-366`). -/
def poolScrubMap (entries data : List (String × JV)) : List (String × JV) :=
  let entries := copyIfTruthy entries data "pool_id" "pool_id"
  let entries := copyIfTruthy entries data "ts" "ts"
  let entries := copyIfTruthy entries data "project" "project"
  let entries := copyIfTruthy entries data "chain" "chain"
  let entries := copyIfTruthy entries data "symbol" "symbol"
  let entries := copyIfDefined entries data "tvl_usd" "tvl_usd"
  let entries := copyIfDefined entries data "apy" "apy"
  let entries := copyIfDefined entries data "apy_base" "apy_base"
  copyIfTruthy entries data "url" "url"

/-- What one call to the Scrub Router did. -/
inductive ScrubAction where
  | skippedNoData
  | inserted (row : List (String × JV))
  | loggedFailure (e : String)
deriving DecidableEq, Repr

/-- The body of `insertIntoScrubTable` inside its `try` block: build
`scrubData`, apply the per-table column mapping, drop `undefined`/`null`
values, no-op (with a logged error) when nothing remains, otherwise run the
`INSERT` against the storage collaborator `query`, whose failure is an
exception (`Except.error`). -/
def insertIntoScrubTableBody (query : List (String × JV) → Except String Unit)
    (tableName : String) (data : List (String × JV)) (validation : ValidationResult)
    (jobRunId : String) (originalData : JV) : Except String ScrubAction :=
  let scrubData := baseScrubData validation jobRunId originalData
  let scrubData :=
    if tableName = "token_price_scrub" then tokenPriceScrubMap scrubData data
    else scrubData
  let scrubData :=
    if tableName = "lending_market_scrub" then lendingScrubMap scrubData data
    else scrubData
  let scrubData :=
    if tableName = "protocol_tvl_scrub" then protocolTvlScrubMap scrubData data
    else scrubData
  let scrubData :=
    if tableName = "cl_pool_hist_scrub" then poolScrubMap scrubData data
    else scrubData
  let cleanData := scrubData.filter (fun p => !(p.2 == JV.null))
  if cleanData.isEmpty then Except.ok ScrubAction.skippedNoData
  else
    match query cleanData with
    | Except.ok _ => Except.ok (ScrubAction.inserted cleanData)
    | Except.error e => Except.error e

/-- `insertIntoScrubTable(client, tableName, data, validation, jobRunId,
originalData)`: the whole body runs inside `try { … } catch (error) { …
/* do not throw */ }`, so an internal failure is downgraded to a logged
outcome. -/
def insertIntoScrubTable (query : List (String × JV) → Except String Unit)
    (tableName : String) (data : List (String × JV)) (validation : ValidationResult)
    (jobRunId : String) (originalData : JV) : Except String ScrubAction :=
  match insertIntoScrubTableBody query tableName data validation jobRunId originalData with
  | Except.ok a => Except.ok a
  | Except.error e => Except.ok (ScrubAction.loggedFailure e)

/-- **C6**: every call to the Scrub Router returns without throwing — for
every storage collaborator (including one whose write always fails), every
target collection, record, validation result, run id and original payload,
`insertIntoScrubTable` produces `Except.ok` (never `Except.error`), so a
failed quarantine write cannot abort the batch that triggered it. -/
theorem insertIntoScrubTable_never_throws :
    ∀ (query : List (String × JV) → Except String Unit) (tableName : String)
      (data : List (String × JV)) (validation : ValidationResult)
      (jobRunId : String) (originalData : JV),
      ∃ a, insertIntoScrubTable query tableName data validation jobRunId originalData =
        Except.ok a := by
  intro query tableName data validation jobRunId originalData
  unfold insertIntoScrubTable
  rcases insertIntoScrubTableBody query tableName data validation jobRunId originalData
    with e | a
  · exact ⟨ScrubAction.loggedFailure e, rfl⟩
  · exact ⟨a, rfl⟩

/-! ## Quality Aggregator (`api/data_validation.js:401-435`,
`updateQualitySummary`) -/

/-- The metrics object destructured by `updateQualitySummary`; note it has no
quality-score field — the caller cannot supply one. -/
structure QualityMetrics where
  totalRecords : ℕ
  cleanRecords : ℕ
  scrubbedRecords : ℕ
  errorRecords : ℕ
  outlierRecords : ℕ
  processingTimeMs : ℕ
  errorSummary : List (String × ℕ)
deriving DecidableEq, Repr

/-- One row of `scrub.data_quality_summary`. -/
structure SummaryRow where
  jobName : String
  jobRunId : String
  totalRecords : ℕ
  cleanRecords : ℕ
  scrubbedRecords : ℕ
  errorRecords : ℕ
  outlierRecords : ℕ
  overallQualityScore : ℚ
  processingTimeMs : ℕ
  errorSummary : List (String × ℕ)
deriving DecidableEq, Repr

/-- The row that `updateQualitySummary` binds into its statement:
`overallQualityScore = totalRecords > 0 ? cleanRecords / totalRecords * 100 : 0`
is always recomputed from the counters (`api/data_validation.js:412`). -/
def summaryRowOf (jobName jobRunId : String) (m : QualityMetrics) : SummaryRow :=
  { jobName := jobName
    jobRunId := jobRunId
    totalRecords := m.totalRecords
    cleanRecords := m.cleanRecords
    scrubbedRecords := m.scrubbedRecords
    errorRecords := m.errorRecords
    outlierRecords := m.outlierRecords
    overallQualityScore :=
      if 0 < m.totalRecords then (m.cleanRecords : ℚ) / m.totalRecords * 100 else 0
    processingTimeMs := m.processingTimeMs
    errorSummary := m.errorSummary }

/-- `updateQualitySummary(client, jobName, jobRunId, metrics)`: computes the
derived score and awaits the upsert; there is no `try`/`catch` in the
function, so a failing statement (`Except.error`) propagates to the caller. -/
def updateQualitySummary (query : SummaryRow → Except String Unit)
    (jobName jobRunId : String) (m : QualityMetrics) : Except String Unit :=
  query (summaryRowOf jobName jobRunId m)

/-- The HTTP response fields the jobs report (`status`, body `success`). -/
structure JobHttpResponse where
  status : ℕ
  success : Bool
deriving DecidableEq, Repr

/-- The tail of `api/backfill_token_prices_with_quality.js`: the success-path
`await updateQualitySummary(...)` (lines 291-300) runs inside the job's outer
`try`; if it completes, the job responds 200 with its computed `jobSuccess`
flag, and if it throws, control reaches the catch at line 336, which responds
500 with `success: false`. -/
def tokenPriceJobFinish (summaryWrite : Except String Unit) (jobSuccess : Bool) :
    JobHttpResponse :=
  match summaryWrite with
  | Except.ok _ => ⟨200, jobSuccess⟩
  | Except.error _ => ⟨500, false⟩

/-- **C7** (counterexample): with a storage collaborator whose summary write
fails, `updateQualitySummary` returns that very error — the persistence
failure is NOT swallowed inside the aggregator; it escalates to the caller. -/
theorem updateQualitySummary_escalates_failure :
    updateQualitySummary (fun _ => Except.error "summary write failed")
      "backfill_token_prices" "job_run_1" ⟨10, 8, 2, 0, 0, 500, []⟩ =
      Except.error "summary write failed" := rfl

/-- **C7** (amended): a persistence failure inside `updateQualitySummary`
propagates unchanged to the caller (the aggregator has no `try`/`catch`), and
in the token-price job the success-path summary call is guarded only by the
job's top-level catch, so a failed summary write there flips the job's
reported outcome to a 500 failure response regardless of the processing
result. -/
theorem updateQualitySummary_failure_changes_job_outcome :
    ∀ (e jobName jobRunId : String) (m : QualityMetrics)
      (query : SummaryRow → Except String Unit),
      query (summaryRowOf jobName jobRunId m) = Except.error e →
      updateQualitySummary query jobName jobRunId m = Except.error e ∧
      ∀ jobSuccess,
        tokenPriceJobFinish (updateQualitySummary query jobName jobRunId m) jobSuccess =
          ⟨500, false⟩ := by
  intro e jobName jobRunId m query h
  refine ⟨h, fun jobSuccess => ?_⟩
  unfold tokenPriceJobFinish updateQualitySummary
  rw [h]

/-- A summary write that always fails (used to witness C7). -/
def failingSummaryQuery : SummaryRow → Except String Unit :=
  fun _ => Except.error "db down"

/-- Sample metrics used in the C7 witness. -/
def sampleMetrics : QualityMetrics := ⟨10, 8, 2, 0, 0, 500, []⟩

/-- Witness for the amended C7 at a concrete failing collaborator. -/
theorem updateQualitySummary_failure_changes_job_outcome_witness :
    failingSummaryQuery (summaryRowOf "backfill_token_prices" "run1" sampleMetrics) =
        Except.error "db down" ∧
    updateQualitySummary failingSummaryQuery "backfill_token_prices" "run1" sampleMetrics =
        Except.error "db down" ∧
    tokenPriceJobFinish
        (updateQualitySummary failingSummaryQuery "backfill_token_prices" "run1"
          sampleMetrics) true =
      ⟨500, false⟩ := by
  have h := updateQualitySummary_failure_changes_job_outcome "db down"
    "backfill_token_prices" "run1" sampleMetrics failingSummaryQuery rfl
  exact ⟨rfl, h.1, h.2 true⟩

/-! ## Quality Aggregator: upsert-by-replacement semantics
(the `INSERT … ON CONFLICT (job_name, job_run_id) DO UPDATE SET …` issued by
`updateQualitySummary`, `api/data_validation.js:414-430`) -/

/-- Key match on `(job_name, job_run_id)` — the unique pair of
`scrub.data_quality_summary`. -/
def summaryKeyEq (row : SummaryRow) (j r : String) : Bool :=
  row.jobName == j && row.jobRunId == r

/-- The `DO UPDATE SET` list of the statement: every non-key column of the
conflicting row is overwritten with the excluded (incoming) row's value. -/
def applySummaryUpdate (old incoming : SummaryRow) : SummaryRow :=
  { old with
    totalRecords := incoming.totalRecords
    cleanRecords := incoming.cleanRecords
    scrubbedRecords := incoming.scrubbedRecords
    errorRecords := incoming.errorRecords
    outlierRecords := incoming.outlierRecords
    overallQualityScore := incoming.overallQualityScore
    processingTimeMs := incoming.processingTimeMs
    errorSummary := incoming.errorSummary }

/-- Effect of the upsert statement on the summary table: update the
conflicting row in place when the key exists, append otherwise. -/
def upsertSummaryRow (table : List SummaryRow) (row : SummaryRow) : List SummaryRow :=
  if table.any (fun r0 => summaryKeyEq r0 row.jobName row.jobRunId) then
    table.map (fun r0 =>
      if summaryKeyEq r0 row.jobName row.jobRunId then applySummaryUpdate r0 row else r0)
  else table ++ [row]

/-- The table-level effect of one successful `updateQualitySummary` call. -/
def recordQualitySummary (table : List SummaryRow) (jobName jobRunId : String)
    (m : QualityMetrics) : List SummaryRow :=
  upsertSummaryRow table (summaryRowOf jobName jobRunId m)

/-- A stored row's score is the derived value `clean/total*100` (0 when the
total is 0) of its own counters. -/
def scoreDerived (row : SummaryRow) : Prop :=
  row.overallQualityScore =
    if 0 < row.totalRecords then (row.cleanRecords : ℚ) / row.totalRecords * 100 else 0

lemma scoreDerived_summaryRowOf (j r : String) (m : QualityMetrics) :
    scoreDerived (summaryRowOf j r m) := rfl

lemma scoreDerived_applySummaryUpdate (old incoming : SummaryRow)
    (h : scoreDerived incoming) : scoreDerived (applySummaryUpdate old incoming) := h

lemma summaryKeyEq_summaryRowOf (j r : String) (m : QualityMetrics) :
    summaryKeyEq (summaryRowOf j r m) j r = true := by
  simp [summaryKeyEq, summaryRowOf]

lemma summaryRowOf_jobName (j r : String) (m : QualityMetrics) :
    (summaryRowOf j r m).jobName = j := rfl

lemma summaryRowOf_jobRunId (j r : String) (m : QualityMetrics) :
    (summaryRowOf j r m).jobRunId = r := rfl

lemma upsertSummaryRow_scoreDerived (t : List SummaryRow) (row : SummaryRow)
    (ht : ∀ x ∈ t, scoreDerived x) (hrow : scoreDerived row) :
    ∀ x ∈ upsertSummaryRow t row, scoreDerived x := by
  intro x hx
  unfold upsertSummaryRow at hx
  split_ifs at hx with hany
  · rcases List.mem_map.mp hx with ⟨y, hy, hxy⟩
    by_cases hkey : summaryKeyEq y row.jobName row.jobRunId = true
    · rw [if_pos hkey] at hxy
      rw [← hxy]
      exact scoreDerived_applySummaryUpdate y row hrow
    · rw [if_neg hkey] at hxy
      rw [← hxy]
      exact ht y hy
  · rcases List.mem_append.mp hx with h | h
    · exact ht x h
    · rw [List.mem_singleton.mp h]
      exact hrow

/-- **C8**: starting from a table with no row for `(jobName, runId)`, two
aggregator calls with that key leave exactly one matching row, whose
counters are exactly those derived from the second call's metrics
(replacement, not accumulation); and the upsert preserves the invariant that
every stored row's `overallQualityScore` is recomputed from its own
counters as `clean/total*100` (0 when total is 0) — the metrics record has no
score field, so it can never be taken from the caller. -/
theorem qualitySummary_upsert_replaces_not_accumulates
    (table : List SummaryRow) (j r : String) (m1 m2 : QualityMetrics)
    (h0 : table.countP (fun row => summaryKeyEq row j r) = 0) :
    (recordQualitySummary (recordQualitySummary table j r m1) j r m2).countP
        (fun row => summaryKeyEq row j r) = 1 ∧
    (∀ row ∈ recordQualitySummary (recordQualitySummary table j r m1) j r m2,
      summaryKeyEq row j r = true → row = summaryRowOf j r m2) ∧
    (∀ (t : List SummaryRow) (j' r' : String) (m' : QualityMetrics),
      (∀ row ∈ t, scoreDerived row) →
      ∀ row ∈ recordQualitySummary t j' r' m', scoreDerived row) := by
  have hnomatch : ∀ x ∈ table, summaryKeyEq x j r = false := by
    intro x hx
    have h1 := List.countP_eq_zero.mp h0 x hx
    simpa using h1
  have hstep1 : recordQualitySummary table j r m1 = table ++ [summaryRowOf j r m1] := by
    unfold recordQualitySummary upsertSummaryRow
    rw [if_neg]
    intro hany
    rcases List.any_eq_true.mp hany with ⟨x, hx, hkey⟩
    rw [summaryRowOf_jobName, summaryRowOf_jobRunId, hnomatch x hx] at hkey
    exact Bool.false_ne_true hkey
  have hstep2 : recordQualitySummary (table ++ [summaryRowOf j r m1]) j r m2 =
      table ++ [summaryRowOf j r m2] := by
    unfold recordQualitySummary upsertSummaryRow
    rw [if_pos]
    · rw [List.map_append]
      congr 1
      · have hcong : ∀ x ∈ table,
            (if summaryKeyEq x (summaryRowOf j r m2).jobName
                (summaryRowOf j r m2).jobRunId then
              applySummaryUpdate x (summaryRowOf j r m2) else x) = id x := by
          intro x hx
          rw [if_neg]
          · rfl
          · show ¬ summaryKeyEq x j r = true
            rw [hnomatch x hx]
            exact Bool.false_ne_true
        rw [List.map_congr_left hcong, List.map_id]
      · simp only [List.map_cons, List.map_nil]
        rw [if_pos]
        · rfl
        · exact summaryKeyEq_summaryRowOf j r m1
    · refine List.any_eq_true.mpr ⟨summaryRowOf j r m1, by simp, ?_⟩
      exact summaryKeyEq_summaryRowOf j r m1
  rw [hstep1, hstep2]
  refine ⟨?_, ?_, ?_⟩
  · rw [List.countP_append]
    have h2 : List.countP (fun row => summaryKeyEq row j r) [summaryRowOf j r m2] = 1 := by
      simp [List.countP_cons, summaryKeyEq_summaryRowOf]
    omega
  · intro row hrow hkey
    rcases List.mem_append.mp hrow with h | h
    · rw [hnomatch row h] at hkey
      exact absurd hkey Bool.false_ne_true
    · exact List.mem_singleton.mp h
  · intro t j' r' m' hder row hrow
    exact upsertSummaryRow_scoreDerived t (summaryRowOf j' r' m') hder
      (scoreDerived_summaryRowOf j' r' m') row hrow

/-- Second sample metrics record, with different counters (for the C8
witness). -/
def sampleMetricsSecond : QualityMetrics := ⟨12, 9, 3, 1, 1, 800, [("no_api_data", 1)]⟩

/-- Witness for C8: starting from an empty table, two calls with the same
`(jobName, runId)` leave exactly one matching row. -/
theorem qualitySummary_upsert_replaces_not_accumulates_witness :
    (([] : List SummaryRow).countP
        (fun row => summaryKeyEq row "backfill_token_prices" "run1") = 0) ∧
    ((recordQualitySummary
        (recordQualitySummary [] "backfill_token_prices" "run1" sampleMetrics)
        "backfill_token_prices" "run1" sampleMetricsSecond).countP
        (fun row => summaryKeyEq row "backfill_token_prices" "run1") = 1) := by
  have h := qualitySummary_upsert_replaces_not_accumulates []
    "backfill_token_prices" "run1" sampleMetrics sampleMetricsSecond rfl
  exact ⟨rfl, h.1⟩
